import Mathlib

/-!
Shallow embedding of the YouTube-summarizer backend (`main.py`).

Strings manipulated by the program (URLs, transcripts, prompts) are modelled
as `List Char`; Python's `str.split`, `in`, slicing and concatenation become
the corresponding list operations.  Fixed human-readable messages stay as
Lean `String` literals.  The quota-limited completion service and the model
rebuild are modelled as oracles indexed by the number of calls made so far,
matching the spec's interface for the external completion service.
-/

namespace YTSum

/-- Python `s.split(sep)` (non-empty `sep`), one character at a time.
`skip` counts characters still to be consumed as part of an already
matched separator occurrence (matches are non-overlapping, scanning
left to right, exactly as Python's `str.split`). -/
def splitGo (sep : List Char) : List Char → Nat → List (List Char)
  | [], _ => [[]]
  | _ :: rest, skip + 1 => splitGo sep rest skip
  | c :: rest, 0 =>
    if sep.isPrefixOf (c :: rest) then
      [] :: splitGo sep rest (sep.length - 1)
    else
      match splitGo sep rest 0 with
      | [] => [[c]]
      | p :: ps => (c :: p) :: ps

/-- Python `s.split(sep)` for a non-empty separator (the program only ever
splits on `"v="`, `"&"` and `"/"`). -/
def splitOnSub (sep s : List Char) : List (List Char) :=
  if sep.isEmpty then [s] else splitGo sep s 0

/-- Python's substring test `needle in hay`. -/
def listContainsSub (hay needle : List Char) : Bool :=
  match hay with
  | [] => needle.isEmpty
  | _ :: t => needle.isPrefixOf hay || listContainsSub t needle

/-- Embedding of `main.py` lines 127-140: `extract_video_id`.
`video_url.split("v=")[1].split("&")[0]` when `"v=" in video_url`,
otherwise `video_url.split("/")[-1]`. -/
def extract_video_id (video_url : List Char) : List Char :=
  if listContainsSub video_url ("v=".toList) then
    (splitOnSub ("&".toList) ((splitOnSub ("v=".toList) video_url).getD 1 [])).getD 0 []
  else
    (splitOnSub ("/".toList) video_url).getLastD []

/-- Embedding of `main.py` line 58. -/
def MAX_RETRIES : Nat := 3

/-- Embedding of `main.py` line 59. -/
def BASE_DELAY : Nat := 1

/-- Python `str(e).lower()` on the ASCII error messages the code matches on. -/
def pyLower (m : String) : List Char := m.toList.map Char.toLower

/-- Embedding of `main.py` line 205: `any(keyword in error_str for keyword in ["429", "quota", "rate limit"])`
where `error_str = str(e).lower()`. -/
def isRateLimitError (m : String) : Bool :=
  listContainsSub (pyLower m) ("429".toList) ||
  listContainsSub (pyLower m) ("quota".toList) ||
  listContainsSub (pyLower m) ("rate limit".toList)

/-- Embedding of `main.py` line 227: `any(keyword in error_str for keyword in ["400", "api key", "invalid", "expired"])`. -/
def isBadKeyError (m : String) : Bool :=
  listContainsSub (pyLower m) ("400".toList) ||
  listContainsSub (pyLower m) ("api key".toList) ||
  listContainsSub (pyLower m) ("invalid".toList) ||
  listContainsSub (pyLower m) ("expired".toList)

/-- One candidate of a completion-service response; `finish_reason = none`
models a candidate object without a `finish_reason` attribute
(`hasattr(candidate, 'finish_reason')` false), `some name` models
`candidate.finish_reason.name = name`. -/
structure Candidate where
  finish_reason : Option String
deriving DecidableEq

/-- A completion-service response object: `{text, candidates[{finishReason}]}`
per the spec's external interface.  An empty `text` is falsy in Python. -/
structure GenResponse where
  text : String
  candidates : List Candidate
deriving DecidableEq

/-- Outcome of one `model.generate_content(prompt)` call: a response object,
or a thrown error carrying a message string. -/
inductive ServiceOutcome where
  | resp (r : GenResponse)
  | exn (msg : String)
deriving DecidableEq

/-- The environment of `generate_summary_with_retry`: the credential pool
size (`len(API_KEYS)`), the completion service as an oracle indexed by the
number of calls made so far, and whether the k-th `create_gemini_model()`
rebuild after a rotation succeeds. -/
structure Env where
  numKeys : Nat
  service : Nat → List Char → ServiceOutcome
  createModelOk : Nat → Bool

/-- Observable trace of one `generate_summary_with_retry` run:
the returned string, the final `current_api_key_index`, how many times the
completion service was invoked, the loop-counter value `attempt` at each
service invocation, the backoff delays slept, and how many times the key
index was incremented (rotations). -/
structure Trace where
  result : String
  finalIndex : Nat
  calls : Nat
  callAttempts : List Nat
  sleeps : List Nat
  rotations : Nat
deriving DecidableEq

/-- Embedding of `main.py` lines 186-232: the body of the `for attempt in range(MAX_RETRIES)`
loop.  `fuel` is the number of loop iterations remaining (`MAX_RETRIES - attempt`
at the top-level call); `idx` is the global `current_api_key_index`;
`calls`, `atts`, `sleeps`, `rot` accumulate the observable trace. -/
def genLoop (env : Env) (prompt : List Char) :
    Nat → Nat → Nat → Nat → List Nat → List Nat → Nat → Trace
  | 0, _, idx, calls, atts, sleeps, rot =>
    -- loop exhausted: `main.py` line 232
    ⟨"Error: Failed to generate summary after multiple attempts.",
      idx, calls, atts, sleeps, rot⟩
  | fuel + 1, attempt, idx, calls, atts, sleeps, rot =>
    match env.service calls prompt with
    | .resp r =>
      if r.text ≠ "" then
        ⟨r.text, idx, calls + 1, atts ++ [attempt], sleeps, rot⟩
      else
        match r.candidates with
        | c :: _ =>
          if c.finish_reason = some "SAFETY" then
            ⟨"Error: Content blocked by safety filter.",
              idx, calls + 1, atts ++ [attempt], sleeps, rot⟩
          else
            ⟨"Error: Empty response. Finish Reason: " ++ c.finish_reason.getD "UNKNOWN",
              idx, calls + 1, atts ++ [attempt], sleeps, rot⟩
        | [] =>
          ⟨"Error: No response generated.",
            idx, calls + 1, atts ++ [attempt], sleeps, rot⟩
    | .exn m =>
      if isRateLimitError m then
        -- rotation sub-step, `main.py` lines 207-214
        let canRotate := idx < env.numKeys - 1
        let idx' := if canRotate then idx + 1 else idx
        let rot' := if canRotate then rot + 1 else rot
        if canRotate ∧ env.createModelOk rot then
          genLoop env prompt fuel (attempt + 1) idx' (calls + 1) (atts ++ [attempt]) sleeps rot'
        else if attempt < MAX_RETRIES - 1 then
          -- backoff, `main.py` lines 216-220
          genLoop env prompt fuel (attempt + 1) idx' (calls + 1) (atts ++ [attempt])
            (sleeps ++ [BASE_DELAY * 2 ^ attempt]) rot'
        else
          -- exhaustion messaging, `main.py` lines 221-226
          if env.numKeys - idx' - 1 > 0 then
            ⟨"Error: API quota exceeded. " ++ toString (env.numKeys - idx' - 1) ++
                " backup keys remaining but all failed. Please try again later.",
              idx', calls + 1, atts ++ [attempt], sleeps, rot'⟩
          else
            ⟨"Error: All API keys have been exhausted. Please wait for quota reset or add more API keys.",
              idx', calls + 1, atts ++ [attempt], sleeps, rot'⟩
      else if isBadKeyError m then
        ⟨"Error: Invalid or expired API key. Please check your API key configuration.",
          idx, calls + 1, atts ++ [attempt], sleeps, rot⟩
      else
        ⟨"Error during summarization: " ++ m,
          idx, calls + 1, atts ++ [attempt], sleeps, rot⟩

/-- Embedding of `main.py` lines 173-232: `generate_summary_with_retry(model, prompt)`
run from key index `idx0`. -/
def generate_summary_with_retry (env : Env) (idx0 : Nat) (prompt : List Char) : Trace :=
  genLoop env prompt MAX_RETRIES 0 idx0 0 [] [] 0

/-- The ellipsis marker appended on truncation (`main.py` lines 252 and 297). -/
def ellipsis : List Char := "...".toList

/-- Embedding of `main.py` lines 289-294: the character budget per detail level. -/
def max_transcript_length_for (detail_level : List Char) : Nat :=
  if detail_level = "brief".toList then 6000
  else if detail_level = "detailed".toList then 12000
  else 8000

/-- Embedding of `main.py` lines 296-297: the (possibly truncated) transcript that is
embedded into the advanced prompt. -/
def truncatedTranscript (transcript detail_level : List Char) : List Char :=
  if transcript.length > max_transcript_length_for detail_level then
    transcript.take (max_transcript_length_for detail_level) ++ ellipsis
  else transcript

/-- Embedding of `main.py` lines 301-305: the `'default'` entry of `style_prompts`. -/
def defaultStyleBlock : List Char :=
  ("Provide a clear summary covering:\n1. Main Topic\n2. Key Points (3-5 points)\n3. Important Details\n4. Conclusions").toList

/-- Embedding of `main.py` lines 300-336, 346: `style_prompts.get(summary_style, style_prompts['default'])`. -/
def style_prompts_get (summary_style : List Char) : List Char :=
  if summary_style = "default".toList then defaultStyleBlock
  else if summary_style = "bullet-points".toList then
    ("Provide a bullet-point summary with:\n• Main topic and overview\n• Key points (use bullet points throughout)\n• Important details (as sub-bullets)\n• Final conclusions").toList
  else if summary_style = "paragraphs".toList then
    ("Provide a well-structured paragraph summary with:\n- Opening paragraph: Main topic and context\n- Body paragraphs: Key points and details (2-3 paragraphs)\n- Closing paragraph: Conclusions and takeaways").toList
  else if summary_style = "qa".toList then
    ("Provide a Q&A format summary with:\nQ: What is the main topic of this video?\nA: [Answer]\n\nQ: What are the key points discussed?\nA: [Answer]\n\nQ: What are the most important details?\nA: [Answer]\n\nQ: What conclusions are drawn?\nA: [Answer]").toList
  else if summary_style = "timeline".toList then
    ("Provide a timeline-style summary with:\n🕐 Beginning: [What starts the discussion]\n🕕 Early Discussion: [Initial key points]\n🕘 Middle: [Main content and details]\n🕛 End: [Conclusions and final thoughts]").toList
  else defaultStyleBlock

/-- Embedding of `main.py` lines 339-343, 347: `detail_instructions.get(detail_level, detail_instructions['medium'])`. -/
def detail_instructions_get (detail_level : List Char) : List Char :=
  if detail_level = "brief".toList then
    ("Keep it concise and focus only on the most essential information.").toList
  else if detail_level = "detailed".toList then
    ("Include comprehensive details, examples, and thorough explanations.").toList
  else ("Provide a balanced level of detail with key information.").toList

/-- Embedding of `main.py` lines 352-356: `language_names.get(translate_to, translate_to)`. -/
def language_name (code : List Char) : List Char :=
  if code = "es".toList then "Spanish".toList
  else if code = "fr".toList then "French".toList
  else if code = "de".toList then "German".toList
  else if code = "it".toList then "Italian".toList
  else if code = "pt".toList then "Portuguese".toList
  else if code = "ru".toList then "Russian".toList
  else if code = "ja".toList then "Japanese".toList
  else if code = "ko".toList then "Korean".toList
  else if code = "zh".toList then "Chinese".toList
  else if code = "ar".toList then "Arabic".toList
  else if code = "hi".toList then "Hindi".toList
  else code

/-- Embedding of `main.py` lines 350-358: the translation directive ("" when `translate_to = 'none'`). -/
def translation_instruction_for (translate_to : List Char) : List Char :=
  if translate_to ≠ "none".toList then
    ("\n\nIMPORTANT: Translate the entire summary to ").toList ++ language_name translate_to ++ ".".toList
  else []

/-- Embedding of `main.py` lines 288-368: the prompt text assembled by
`summarize_transcript_advanced` from a non-empty transcript. -/
def buildAdvancedPrompt (transcript summary_style detail_level translate_to : List Char) : List Char :=
  ("Summarize this YouTube video transcript in the requested format:\n\n").toList ++
    truncatedTranscript transcript detail_level ++
    ("\n\n").toList ++
    style_prompts_get summary_style ++
    ("\n\nInstructions: ").toList ++
    detail_instructions_get detail_level ++
    translation_instruction_for translate_to ++
    ("\n\nSummary:").toList

/-- Embedding of `main.py` lines 250-252: the simple entry point's truncation (fixed 8000 budget). -/
def simpleTruncatedTranscript (transcript : List Char) : List Char :=
  if transcript.length > 8000 then transcript.take 8000 ++ ellipsis else transcript

/-- Embedding of `main.py` lines 249-265: the prompt text assembled by `summarize_transcript`
from a non-empty transcript. -/
def buildSimplePrompt (transcript : List Char) : List Char :=
  ("Summarize this YouTube video transcript in an organized format:\n\n").toList ++
    simpleTruncatedTranscript transcript ++
    ("\n\n").toList ++
    defaultStyleBlock ++
    ("\n\nSummary:").toList

/-- Python falsiness of an `Optional[str]` value: `None` and `""` are falsy.
This is the test `if not transcript:` performs. -/
def pyFalsyStr : Option (List Char) → Bool
  | none => true
  | some s => s.isEmpty

/-- Embedding of `main.py` lines 235-267: `summarize_transcript(transcript, model)` run from
key index `idx0`.  The transcript is `Optional[str]`: the retriever's failure
value `None` can flow in. -/
def summarize_transcript (env : Env) (idx0 : Nat) (transcript : Option (List Char)) : Trace :=
  if pyFalsyStr transcript then
    ⟨"Error: Transcript is empty.", idx0, 0, [], [], 0⟩
  else
    generate_summary_with_retry env idx0 (buildSimplePrompt (transcript.getD []))

/-- Embedding of `main.py` lines 270-370: `summarize_transcript_advanced(transcript, model,
summary_style, detail_level, translate_to)` run from key index `idx0`. -/
def summarize_transcript_advanced (env : Env) (idx0 : Nat) (transcript : Option (List Char))
    (summary_style detail_level translate_to : List Char) : Trace :=
  if pyFalsyStr transcript then
    ⟨"Error: Transcript is empty.", idx0, 0, [], [], 0⟩
  else
    generate_summary_with_retry env idx0
      (buildAdvancedPrompt (transcript.getD []) summary_style detail_level translate_to)

/-- The credential-pool rotation step, `main.py` lines 207-208: advance the
index if a successor key exists; the `Bool` reports whether the index moved
(`false` models the spec's `PoolExhausted` report). -/
def poolAdvance (idx numKeys : Nat) : Nat × Bool :=
  if idx < numKeys - 1 then (idx + 1, true) else (idx, false)

/-- A simulated completion service that reports a rate-limit error on every
call, over a pool of `n` credentials, with model rebuilds always succeeding. -/
def envAlways429 (n : Nat) : Env := ⟨n, fun _ _ => .exn "429", fun _ => true⟩

/-- A completion service whose first response carries a safety-block finish
reason and no text. -/
def envSafety : Env := ⟨1, fun _ _ => .resp ⟨"", [⟨some "SAFETY"⟩]⟩, fun _ => true⟩

/-- A completion service that always throws a non-rate-limit,
non-credential error. -/
def envOtherError : Env := ⟨2, fun _ _ => .exn "boom", fun _ => true⟩

/-! ## Lemmas about the retry loop -/

theorem genLoop_rotate_step (env : Env) (prompt : List Char) (fuel attempt idx calls : Nat)
    (atts sleeps : List Nat) (rot : Nat) (m : String)
    (hs : env.service calls prompt = .exn m) (hr : isRateLimitError m = true)
    (hi : idx < env.numKeys - 1) (hc : env.createModelOk rot = true) :
    genLoop env prompt (fuel + 1) attempt idx calls atts sleeps rot =
      genLoop env prompt fuel (attempt + 1) (idx + 1) (calls + 1)
        (atts ++ [attempt]) sleeps (rot + 1) := by
  simp [genLoop, hs, hr, hi, hc]

theorem genLoop_backoff_noRotate (env : Env) (prompt : List Char) (fuel attempt idx calls : Nat)
    (atts sleeps : List Nat) (rot : Nat) (m : String)
    (hs : env.service calls prompt = .exn m) (hr : isRateLimitError m = true)
    (hi : ¬ idx < env.numKeys - 1) (ha : attempt < MAX_RETRIES - 1) :
    genLoop env prompt (fuel + 1) attempt idx calls atts sleeps rot =
      genLoop env prompt fuel (attempt + 1) idx (calls + 1) (atts ++ [attempt])
        (sleeps ++ [BASE_DELAY * 2 ^ attempt]) rot := by
  simp [genLoop, hs, hr, hi, ha]

theorem genLoop_exhaust_noRotate (env : Env) (prompt : List Char) (fuel attempt idx calls : Nat)
    (atts sleeps : List Nat) (rot : Nat) (m : String)
    (hs : env.service calls prompt = .exn m) (hr : isRateLimitError m = true)
    (hi : ¬ idx < env.numKeys - 1) (ha : ¬ attempt < MAX_RETRIES - 1) :
    genLoop env prompt (fuel + 1) attempt idx calls atts sleeps rot =
      if env.numKeys - idx - 1 > 0 then
        ⟨"Error: API quota exceeded. " ++ toString (env.numKeys - idx - 1) ++
            " backup keys remaining but all failed. Please try again later.",
          idx, calls + 1, atts ++ [attempt], sleeps, rot⟩
      else
        ⟨"Error: All API keys have been exhausted. Please wait for quota reset or add more API keys.",
          idx, calls + 1, atts ++ [attempt], sleeps, rot⟩ := by
  simp [genLoop, hs, hr, hi, ha]

theorem genLoop_rotateFail_backoff (env : Env) (prompt : List Char) (fuel attempt idx calls : Nat)
    (atts sleeps : List Nat) (rot : Nat) (m : String)
    (hs : env.service calls prompt = .exn m) (hr : isRateLimitError m = true)
    (hi : idx < env.numKeys - 1) (hc : env.createModelOk rot = false)
    (ha : attempt < MAX_RETRIES - 1) :
    genLoop env prompt (fuel + 1) attempt idx calls atts sleeps rot =
      genLoop env prompt fuel (attempt + 1) (idx + 1) (calls + 1) (atts ++ [attempt])
        (sleeps ++ [BASE_DELAY * 2 ^ attempt]) (rot + 1) := by
  simp [genLoop, hs, hr, hi, hc, ha]

theorem genLoop_rotateFail_exhaust (env : Env) (prompt : List Char) (fuel attempt idx calls : Nat)
    (atts sleeps : List Nat) (rot : Nat) (m : String)
    (hs : env.service calls prompt = .exn m) (hr : isRateLimitError m = true)
    (hi : idx < env.numKeys - 1) (hc : env.createModelOk rot = false)
    (ha : ¬ attempt < MAX_RETRIES - 1) :
    genLoop env prompt (fuel + 1) attempt idx calls atts sleeps rot =
      if env.numKeys - (idx + 1) - 1 > 0 then
        ⟨"Error: API quota exceeded. " ++ toString (env.numKeys - (idx + 1) - 1) ++
            " backup keys remaining but all failed. Please try again later.",
          idx + 1, calls + 1, atts ++ [attempt], sleeps, rot + 1⟩
      else
        ⟨"Error: All API keys have been exhausted. Please wait for quota reset or add more API keys.",
          idx + 1, calls + 1, atts ++ [attempt], sleeps, rot + 1⟩ := by
  simp [genLoop, hs, hr, hi, hc, ha]

theorem genLoop_badKey_step (env : Env) (prompt : List Char) (fuel attempt idx calls : Nat)
    (atts sleeps : List Nat) (rot : Nat) (m : String)
    (hs : env.service calls prompt = .exn m) (hr : isRateLimitError m = false)
    (hb : isBadKeyError m = true) :
    genLoop env prompt (fuel + 1) attempt idx calls atts sleeps rot =
      ⟨"Error: Invalid or expired API key. Please check your API key configuration.",
        idx, calls + 1, atts ++ [attempt], sleeps, rot⟩ := by
  simp [genLoop, hs, hr, hb]

theorem genLoop_otherError_step (env : Env) (prompt : List Char) (fuel attempt idx calls : Nat)
    (atts sleeps : List Nat) (rot : Nat) (m : String)
    (hs : env.service calls prompt = .exn m) (hr : isRateLimitError m = false)
    (hb : isBadKeyError m = false) :
    genLoop env prompt (fuel + 1) attempt idx calls atts sleeps rot =
      ⟨"Error during summarization: " ++ m, idx, calls + 1, atts ++ [attempt], sleeps, rot⟩ := by
  simp [genLoop, hs, hr, hb]

theorem genLoop_text_step (env : Env) (prompt : List Char) (fuel attempt idx calls : Nat)
    (atts sleeps : List Nat) (rot : Nat) (r : GenResponse)
    (hs : env.service calls prompt = .resp r) (ht : r.text ≠ "") :
    genLoop env prompt (fuel + 1) attempt idx calls atts sleeps rot =
      ⟨r.text, idx, calls + 1, atts ++ [attempt], sleeps, rot⟩ := by
  simp [genLoop, hs, ht]

theorem genLoop_safety_step (env : Env) (prompt : List Char) (fuel attempt idx calls : Nat)
    (atts sleeps : List Nat) (rot : Nat) (r : GenResponse) (c : Candidate) (cs : List Candidate)
    (hs : env.service calls prompt = .resp r) (ht : r.text = "")
    (hcand : r.candidates = c :: cs) (hf : c.finish_reason = some "SAFETY") :
    genLoop env prompt (fuel + 1) attempt idx calls atts sleeps rot =
      ⟨"Error: Content blocked by safety filter.",
        idx, calls + 1, atts ++ [attempt], sleeps, rot⟩ := by
  simp [genLoop, hs, ht, hcand, hf]

theorem genLoop_emptyResp_step (env : Env) (prompt : List Char) (fuel attempt idx calls : Nat)
    (atts sleeps : List Nat) (rot : Nat) (r : GenResponse) (c : Candidate) (cs : List Candidate)
    (hs : env.service calls prompt = .resp r) (ht : r.text = "")
    (hcand : r.candidates = c :: cs) (hf : ¬ c.finish_reason = some "SAFETY") :
    genLoop env prompt (fuel + 1) attempt idx calls atts sleeps rot =
      ⟨"Error: Empty response. Finish Reason: " ++ c.finish_reason.getD "UNKNOWN",
        idx, calls + 1, atts ++ [attempt], sleeps, rot⟩ := by
  simp [genLoop, hs, ht, hcand, hf]

theorem genLoop_noCand_step (env : Env) (prompt : List Char) (fuel attempt idx calls : Nat)
    (atts sleeps : List Nat) (rot : Nat) (r : GenResponse)
    (hs : env.service calls prompt = .resp r) (ht : r.text = "")
    (hcand : r.candidates = []) :
    genLoop env prompt (fuel + 1) attempt idx calls atts sleeps rot =
      ⟨"Error: No response generated.", idx, calls + 1, atts ++ [attempt], sleeps, rot⟩ := by
  simp [genLoop, hs, ht, hcand]

theorem genLoop_zero (env : Env) (prompt : List Char) (attempt idx calls : Nat)
    (atts sleeps : List Nat) (rot : Nat) :
    genLoop env prompt 0 attempt idx calls atts sleeps rot =
      ⟨"Error: Failed to generate summary after multiple attempts.",
        idx, calls, atts, sleeps, rot⟩ := rfl

/-- The key index only moves through the rotation sub-step: it never
decreases, its total movement equals the number of rotations recorded, and
it stays below the pool size. -/
theorem genLoop_index_invariant (env : Env) (prompt : List Char) :
    ∀ fuel attempt idx calls atts sleeps rot,
      idx ≤ (genLoop env prompt fuel attempt idx calls atts sleeps rot).finalIndex ∧
      (genLoop env prompt fuel attempt idx calls atts sleeps rot).finalIndex + rot =
        idx + (genLoop env prompt fuel attempt idx calls atts sleeps rot).rotations ∧
      (idx < env.numKeys →
        (genLoop env prompt fuel attempt idx calls atts sleeps rot).finalIndex < env.numKeys) := by
  intro fuel
  induction fuel with
  | zero => intro attempt idx calls atts sleeps rot; exact ⟨Nat.le_refl _, rfl, fun h => h⟩
  | succ n ih =>
    intro attempt idx calls atts sleeps rot
    cases hsv : env.service calls prompt with
    | resp r =>
      by_cases ht : r.text = ""
      · cases hcand : r.candidates with
        | nil =>
          rw [genLoop_noCand_step env prompt n attempt idx calls atts sleeps rot r hsv ht hcand]
          exact ⟨Nat.le_refl _, rfl, fun h => h⟩
        | cons c cs =>
          by_cases hf : c.finish_reason = some "SAFETY"
          · rw [genLoop_safety_step env prompt n attempt idx calls atts sleeps rot r c cs hsv ht
              hcand hf]
            exact ⟨Nat.le_refl _, rfl, fun h => h⟩
          · rw [genLoop_emptyResp_step env prompt n attempt idx calls atts sleeps rot r c cs hsv ht
              hcand hf]
            exact ⟨Nat.le_refl _, rfl, fun h => h⟩
      · rw [genLoop_text_step env prompt n attempt idx calls atts sleeps rot r hsv ht]
        exact ⟨Nat.le_refl _, rfl, fun h => h⟩
    | exn m =>
      by_cases hr : isRateLimitError m = true
      · by_cases hi : idx < env.numKeys - 1
        · by_cases hc : env.createModelOk rot = true
          · rw [genLoop_rotate_step env prompt n attempt idx calls atts sleeps rot m hsv hr hi hc]
            obtain ⟨h1, h2, h3⟩ :=
              ih (attempt + 1) (idx + 1) (calls + 1) (atts ++ [attempt]) sleeps (rot + 1)
            exact ⟨by omega, by omega, fun _ => h3 (by omega)⟩
          · by_cases ha : attempt < MAX_RETRIES - 1
            · rw [genLoop_rotateFail_backoff env prompt n attempt idx calls atts sleeps rot m hsv
                hr hi (by simpa using hc) ha]
              obtain ⟨h1, h2, h3⟩ := ih (attempt + 1) (idx + 1) (calls + 1) (atts ++ [attempt])
                (sleeps ++ [BASE_DELAY * 2 ^ attempt]) (rot + 1)
              exact ⟨by omega, by omega, fun _ => h3 (by omega)⟩
            · rw [genLoop_rotateFail_exhaust env prompt n attempt idx calls atts sleeps rot m hsv
                hr hi (by simpa using hc) ha]
              split
              · refine ⟨?_, ?_, fun _ => ?_⟩ <;> simp <;> omega
              · refine ⟨?_, ?_, fun _ => ?_⟩ <;> simp <;> omega
        · by_cases ha : attempt < MAX_RETRIES - 1
          · rw [genLoop_backoff_noRotate env prompt n attempt idx calls atts sleeps rot m hsv hr
              hi ha]
            obtain ⟨h1, h2, h3⟩ := ih (attempt + 1) idx (calls + 1) (atts ++ [attempt])
              (sleeps ++ [BASE_DELAY * 2 ^ attempt]) rot
            exact ⟨h1, h2, h3⟩
          · rw [genLoop_exhaust_noRotate env prompt n attempt idx calls atts sleeps rot m hsv hr
              hi ha]
            split
            · exact ⟨Nat.le_refl _, rfl, fun h => h⟩
            · exact ⟨Nat.le_refl _, rfl, fun h => h⟩
      · by_cases hb : isBadKeyError m = true
        · rw [genLoop_badKey_step env prompt n attempt idx calls atts sleeps rot m hsv
            (by simpa using hr) hb]
          exact ⟨Nat.le_refl _, rfl, fun h => h⟩
        · rw [genLoop_otherError_step env prompt n attempt idx calls atts sleeps rot m hsv
            (by simpa using hr) (by simpa using hb)]
          exact ⟨Nat.le_refl _, rfl, fun h => h⟩

theorem genLoop_noRateLimit_finalIndex (env : Env) (prompt : List Char)
    (h : ∀ k m, env.service k prompt = .exn m → isRateLimitError m = false) :
    ∀ fuel attempt idx calls atts sleeps rot,
      (genLoop env prompt fuel attempt idx calls atts sleeps rot).finalIndex = idx := by
  intro fuel
  induction fuel with
  | zero => intro attempt idx calls atts sleeps rot; rfl
  | succ n ih =>
    intro attempt idx calls atts sleeps rot
    cases hsv : env.service calls prompt with
    | resp r =>
      by_cases ht : r.text = ""
      · cases hcand : r.candidates with
        | nil => rw [genLoop_noCand_step env prompt n attempt idx calls atts sleeps rot r hsv ht hcand]
        | cons c cs =>
          by_cases hf : c.finish_reason = some "SAFETY"
          · rw [genLoop_safety_step env prompt n attempt idx calls atts sleeps rot r c cs hsv ht
              hcand hf]
          · rw [genLoop_emptyResp_step env prompt n attempt idx calls atts sleeps rot r c cs hsv ht
              hcand hf]
      · rw [genLoop_text_step env prompt n attempt idx calls atts sleeps rot r hsv ht]
    | exn m =>
      have hrf : isRateLimitError m = false := h calls m hsv
      by_cases hb : isBadKeyError m = true
      · rw [genLoop_badKey_step env prompt n attempt idx calls atts sleeps rot m hsv hrf hb]
      · rw [genLoop_otherError_step env prompt n attempt idx calls atts sleeps rot m hsv hrf
          (by simpa using hb)]

/-! ## Claim C1 -/

/-- C1, as stated, is false: on a rate-limit error with a successor
credential, the code rotates and retries *without a backoff sleep*, but
the retry runs at the *next* counted loop index (`continue` advances the
`for` counter).  Concretely, with three always-rate-limited keys the three
service calls happen at attempt indices 0, 1, 2 — the retry after the
first rotation does not repeat attempt index 0. -/
theorem claim1_counterexample :
    generate_summary_with_retry (envAlways429 3) 0 [] =
      ⟨"Error: All API keys have been exhausted. Please wait for quota reset or add more API keys.",
        2, 3, [0, 1, 2], [], 2⟩ ∧
    (generate_summary_with_retry (envAlways429 3) 0 []).rotations = 2 ∧
    (generate_summary_with_retry (envAlways429 3) 0 []).callAttempts.getD 1 0 ≠
      (generate_summary_with_retry (envAlways429 3) 0 []).callAttempts.getD 0 0 := by decide

/-- C1 (amended): when the completion service raises a rate-limit error and
the pool has a successor credential whose model rebuild succeeds, the client
rotates to the next credential and retries immediately — no backoff delay is
added to the sleep list — but the retry consumes the next counted attempt
index (`attempt + 1`), so rotation is a counted step of the bounded loop,
not an uncounted auxiliary one. -/
theorem claim1_rotation_immediate_but_counted (env : Env) (prompt : List Char)
    (fuel attempt idx calls : Nat) (atts sleeps : List Nat) (rot : Nat) (m : String)
    (hs : env.service calls prompt = .exn m) (hr : isRateLimitError m = true)
    (hi : idx < env.numKeys - 1) (hc : env.createModelOk rot = true) :
    genLoop env prompt (fuel + 1) attempt idx calls atts sleeps rot =
      genLoop env prompt fuel (attempt + 1) (idx + 1) (calls + 1)
        (atts ++ [attempt]) sleeps (rot + 1) :=
  genLoop_rotate_step env prompt fuel attempt idx calls atts sleeps rot m hs hr hi hc

theorem claim1_witness :
    (envAlways429 2).service 0 [] = .exn "429" ∧
    isRateLimitError "429" = true ∧
    0 < (envAlways429 2).numKeys - 1 ∧
    (envAlways429 2).createModelOk 0 = true ∧
    genLoop (envAlways429 2) [] (2 + 1) 0 0 0 [] [] 0 =
      genLoop (envAlways429 2) [] 2 (0 + 1) (0 + 1) (0 + 1) ([] ++ [0]) [] (0 + 1) :=
  ⟨rfl, by decide, by decide, rfl,
    claim1_rotation_immediate_but_counted (envAlways429 2) [] 2 0 0 0 [] [] 0 "429"
      rfl (by decide) (by decide) rfl⟩

/-! ## Claim C2 -/

/-- C2, as stated, is false for N = 4: with four credentials and an
always-rate-limited service, every counted attempt rotates, the loop runs
out after `MAX_RETRIES = 3` attempts, and the terminal message is the
generic "failed after multiple attempts" fallthrough — it mentions keys not
at all, so it distinguishes neither `remainingCount > 0` nor
`remainingCount == 0`. -/
theorem claim2_counterexample :
    2 ≤ (envAlways429 4).numKeys ∧
    generate_summary_with_retry (envAlways429 4) 0 [] =
      ⟨"Error: Failed to generate summary after multiple attempts.", 3, 3, [0, 1, 2], [], 3⟩ ∧
    listContainsSub
      ((generate_summary_with_retry (envAlways429 4) 0 []).result.toList) ("keys".toList)
      = false := by decide

/-- C2 (amended): for a pool of N ≥ 2 credentials and an always-rate-limited
completion service (model rebuilds succeeding), `complete` starting at index 0
performs `min (N-1) MAX_RETRIES` rotations; the terminal message is the
all-keys-exhausted message (`remainingCount == 0`) when N ≤ MAX_RETRIES, and
the generic multiple-attempts fallthrough when N > MAX_RETRIES.  The
"backup keys remaining" (`remainingCount > 0`) variant does not occur in this
scenario. -/
theorem claim2_rotation_bounded (env : Env) (p : List Char) (msgs : Nat → String)
    (hN : 2 ≤ env.numKeys)
    (hs : ∀ k, env.service k p = .exn (msgs k))
    (hr : ∀ k, isRateLimitError (msgs k) = true)
    (hc : ∀ r, env.createModelOk r = true) :
    (generate_summary_with_retry env 0 p).rotations = min (env.numKeys - 1) MAX_RETRIES ∧
    (generate_summary_with_retry env 0 p).result =
      (if env.numKeys ≤ MAX_RETRIES then
        "Error: All API keys have been exhausted. Please wait for quota reset or add more API keys."
      else "Error: Failed to generate summary after multiple attempts.") := by
  have hcase : env.numKeys = 2 ∨ env.numKeys = 3 ∨ 4 ≤ env.numKeys := by omega
  have e1 : generate_summary_with_retry env 0 p = genLoop env p (2 + 1) 0 0 0 [] [] 0 := rfl
  rcases hcase with h2 | h3 | h4
  · have e2 : genLoop env p (2 + 1) 0 0 0 [] [] 0 = genLoop env p 2 1 1 1 [0] [] 1 :=
      genLoop_rotate_step env p 2 0 0 0 [] [] 0 (msgs 0) (hs 0) (hr 0) (by omega) (hc 0)
    have e3 : genLoop env p 2 1 1 1 [0] [] 1 = genLoop env p 1 2 1 2 [0, 1] [2] 1 :=
      genLoop_backoff_noRotate env p 1 1 1 1 [0] [] 1 (msgs 1) (hs 1) (hr 1) (by omega) (by decide)
    have e4 := genLoop_exhaust_noRotate env p 0 2 1 2 [0, 1] [2] 1 (msgs 2) (hs 2) (hr 2)
      (by omega) (by decide)
    rw [e1, e2, e3, e4, if_neg (by omega), h2]
    exact ⟨rfl, by rw [if_pos (by decide)]⟩
  · have e2 : genLoop env p (2 + 1) 0 0 0 [] [] 0 = genLoop env p 2 1 1 1 [0] [] 1 :=
      genLoop_rotate_step env p 2 0 0 0 [] [] 0 (msgs 0) (hs 0) (hr 0) (by omega) (hc 0)
    have e3 : genLoop env p 2 1 1 1 [0] [] 1 = genLoop env p 1 2 2 2 [0, 1] [] 2 :=
      genLoop_rotate_step env p 1 1 1 1 [0] [] 1 (msgs 1) (hs 1) (hr 1) (by omega) (hc 1)
    have e4 := genLoop_exhaust_noRotate env p 0 2 2 2 [0, 1] [] 2 (msgs 2) (hs 2) (hr 2)
      (by omega) (by decide)
    rw [e1, e2, e3, e4, if_neg (by omega), h3]
    exact ⟨rfl, by rw [if_pos (by decide)]⟩
  · have e2 : genLoop env p (2 + 1) 0 0 0 [] [] 0 = genLoop env p 2 1 1 1 [0] [] 1 :=
      genLoop_rotate_step env p 2 0 0 0 [] [] 0 (msgs 0) (hs 0) (hr 0) (by omega) (hc 0)
    have e3 : genLoop env p 2 1 1 1 [0] [] 1 = genLoop env p 1 2 2 2 [0, 1] [] 2 :=
      genLoop_rotate_step env p 1 1 1 1 [0] [] 1 (msgs 1) (hs 1) (hr 1) (by omega) (hc 1)
    have e4 : genLoop env p 1 2 2 2 [0, 1] [] 2 = genLoop env p 0 3 3 3 [0, 1, 2] [] 3 :=
      genLoop_rotate_step env p 0 2 2 2 [0, 1] [] 2 (msgs 2) (hs 2) (hr 2) (by omega) (hc 2)
    rw [e1, e2, e3, e4, genLoop_zero, if_neg (by simp only [MAX_RETRIES]; omega)]
    exact ⟨by simp only [MAX_RETRIES]; simp; omega, rfl⟩

theorem claim2_witness :
    (generate_summary_with_retry (envAlways429 2) 0 []).rotations =
      min ((envAlways429 2).numKeys - 1) MAX_RETRIES ∧
    (generate_summary_with_retry (envAlways429 2) 0 []).result =
      (if (envAlways429 2).numKeys ≤ MAX_RETRIES then
        "Error: All API keys have been exhausted. Please wait for quota reset or add more API keys."
      else "Error: Failed to generate summary after multiple attempts.") :=
  claim2_rotation_bounded (envAlways429 2) [] (fun _ => "429") (by decide)
    (fun _ => rfl) (fun _ => (by decide : isRateLimitError "429" = true)) (fun _ => rfl)

/-! ## Claim C3 -/

/-- C3: the pool index stays in `[0, numKeys)`, never decreases, moves only
through the rotation step (final index = initial index + number of
rotations), and advancing an already-exhausted pool is an idempotent no-op
that reports exhaustion both times. -/
theorem claim3_pool_invariant :
    (∀ idx n, idx < n → idx ≤ (poolAdvance idx n).1 ∧ (poolAdvance idx n).1 < n) ∧
    (∀ idx n, ¬ idx < n - 1 →
      poolAdvance idx n = (idx, false) ∧ poolAdvance (poolAdvance idx n).1 n = (idx, false)) ∧
    (∀ env p idx0,
      idx0 ≤ (generate_summary_with_retry env idx0 p).finalIndex ∧
      (generate_summary_with_retry env idx0 p).finalIndex =
        idx0 + (generate_summary_with_retry env idx0 p).rotations ∧
      (idx0 < env.numKeys → (generate_summary_with_retry env idx0 p).finalIndex < env.numKeys)) := by
  refine ⟨?_, ?_, ?_⟩
  · intro idx n h
    unfold poolAdvance
    split <;> constructor <;> omega
  · intro idx n h
    constructor <;> simp [poolAdvance, h]
  · intro env p idx0
    obtain ⟨h1, h2, h3⟩ := genLoop_index_invariant env p MAX_RETRIES 0 idx0 0 [] [] 0
    refine ⟨h1, ?_, h3⟩
    have h2' : (generate_summary_with_retry env idx0 p).finalIndex + 0 =
        idx0 + (generate_summary_with_retry env idx0 p).rotations := h2
    omega

theorem claim3_witness :
    (0 ≤ (poolAdvance 0 2).1 ∧ (poolAdvance 0 2).1 < 2) ∧
    (poolAdvance 1 2 = (1, false) ∧ poolAdvance (poolAdvance 1 2).1 2 = (1, false)) ∧
    (0 ≤ (generate_summary_with_retry envOtherError 0 []).finalIndex ∧
      (generate_summary_with_retry envOtherError 0 []).finalIndex =
        0 + (generate_summary_with_retry envOtherError 0 []).rotations ∧
      (0 < envOtherError.numKeys →
        (generate_summary_with_retry envOtherError 0 []).finalIndex < envOtherError.numKeys)) :=
  ⟨claim3_pool_invariant.1 0 2 (by decide), claim3_pool_invariant.2.1 1 2 (by decide),
    claim3_pool_invariant.2.2 envOtherError [] 0⟩

/-! ## Claim C7 -/

/-- C7: if the first completion-service call returns a response with no text
whose first candidate has the SAFETY finish reason, the client returns
exactly the safety-filter message with the service invoked exactly once
(one call, at attempt 0, no sleeps, no rotations, index unchanged). -/
theorem claim7_safety_block_no_retry (env : Env) (p : List Char) (idx0 : Nat)
    (r : GenResponse) (c : Candidate) (cs : List Candidate)
    (hs : env.service 0 p = .resp r) (ht : r.text = "")
    (hcand : r.candidates = c :: cs) (hf : c.finish_reason = some "SAFETY") :
    generate_summary_with_retry env idx0 p =
      ⟨"Error: Content blocked by safety filter.", idx0, 1, [0], [], 0⟩ :=
  genLoop_safety_step env p 2 0 idx0 0 [] [] 0 r c cs hs ht hcand hf

theorem claim7_witness :
    envSafety.service 0 [] = .resp ⟨"", [⟨some "SAFETY"⟩]⟩ ∧
    generate_summary_with_retry envSafety 7 [] =
      ⟨"Error: Content blocked by safety filter.", 7, 1, [0], [], 0⟩ :=
  ⟨rfl, claim7_safety_block_no_retry envSafety [] 7 ⟨"", [⟨some "SAFETY"⟩]⟩ ⟨some "SAFETY"⟩ []
    rfl rfl rfl rfl⟩

/-! ## Claim C9 -/

/-- C9: the completion client leaves the credential pool's active index
unchanged on every run in which no service call raises a rate-limit-classified
error — in particular on success, safety-block, empty-response, no-candidates,
bad-credential and catch-all error paths. -/
theorem claim9_no_rotation_frame (env : Env) (p : List Char)
    (h : ∀ k m, env.service k p = .exn m → isRateLimitError m = false) (idx0 : Nat) :
    (generate_summary_with_retry env idx0 p).finalIndex = idx0 :=
  genLoop_noRateLimit_finalIndex env p h MAX_RETRIES 0 idx0 0 [] [] 0

theorem claim9_witness :
    (generate_summary_with_retry envOtherError 1 []).finalIndex = 1 ∧
    (generate_summary_with_retry envSafety 5 []).finalIndex = 5 :=
  ⟨claim9_no_rotation_frame envOtherError []
      (fun _ m hm => by
        simp only [envOtherError] at hm
        injection hm with h
        subst h
        decide) 1,
    claim9_no_rotation_frame envSafety []
      (fun _ m hm => by simp [envSafety] at hm) 5⟩

/-! ## Claim C4 -/

/-- C4: whenever the transcript exceeds the detail level's character budget
(brief=6000, detailed=12000, else 8000), the transcript segment embedded in
the built prompt has length exactly budget + |ellipsis| and ends with the
ellipsis marker. -/
theorem claim4_truncation (t style detail translate : List Char)
    (h : t.length > max_transcript_length_for detail) :
    (truncatedTranscript t detail).length = max_transcript_length_for detail + ellipsis.length ∧
    ellipsis <:+ truncatedTranscript t detail ∧
    ∃ pre post, buildAdvancedPrompt t style detail translate =
      pre ++ truncatedTranscript t detail ++ post := by
  refine ⟨?_, ?_, ?_⟩
  · simp only [truncatedTranscript, if_pos h, List.length_append, List.length_take]
    omega
  · simp only [truncatedTranscript, if_pos h]
    exact List.suffix_append _ _
  · refine ⟨("Summarize this YouTube video transcript in the requested format:\n\n".toList),
      ("\n\n".toList) ++ style_prompts_get style ++ ("\n\nInstructions: ".toList) ++
        detail_instructions_get detail ++ translation_instruction_for translate ++
        ("\n\nSummary:".toList), ?_⟩
    simp [buildAdvancedPrompt, List.append_assoc]

theorem claim4_witness :
    (List.replicate 6001 'a').length > max_transcript_length_for ("brief".toList) ∧
    ((truncatedTranscript (List.replicate 6001 'a') ("brief".toList)).length =
        max_transcript_length_for ("brief".toList) + ellipsis.length ∧
      ellipsis <:+ truncatedTranscript (List.replicate 6001 'a') ("brief".toList) ∧
      ∃ pre post, buildAdvancedPrompt (List.replicate 6001 'a') ("default".toList)
          ("brief".toList) ("none".toList) =
        pre ++ truncatedTranscript (List.replicate 6001 'a') ("brief".toList) ++ post) := by
  have hyp : (List.replicate 6001 'a').length > max_transcript_length_for ("brief".toList) := by
    have e : max_transcript_length_for ("brief".toList) = 6000 := by decide
    rw [e, List.length_replicate]
    omega
  exact ⟨hyp, claim4_truncation _ ("default".toList) _ ("none".toList) hyp⟩

/-! ## Claim C5 -/

/-- C5: for an empty transcript the advanced summarize operation returns
exactly `Error: Transcript is empty.` whatever the style, detail and
translation options, with zero completion-service calls; the simple entry
point behaves identically. -/
theorem claim5_empty_transcript (env : Env) (idx0 : Nat)
    (style detail translate : List Char) :
    summarize_transcript_advanced env idx0 (some []) style detail translate =
      ⟨"Error: Transcript is empty.", idx0, 0, [], [], 0⟩ ∧
    (summarize_transcript_advanced env idx0 (some []) style detail translate).calls = 0 ∧
    summarize_transcript env idx0 (some []) =
      ⟨"Error: Transcript is empty.", idx0, 0, [], [], 0⟩ :=
  ⟨rfl, rfl, rfl⟩

/-! ## Claim C10 -/

/-- C10: a missing transcript (the retriever's failure value `None`) is
treated by both summarize entry points exactly like the empty transcript
string, because `if not transcript:` is a falsiness check: both return
`Error: Transcript is empty.` with zero completion-service calls. -/
theorem claim10_none_like_empty (env : Env) (idx0 : Nat)
    (style detail translate : List Char) :
    summarize_transcript_advanced env idx0 none style detail translate =
      summarize_transcript_advanced env idx0 (some []) style detail translate ∧
    summarize_transcript env idx0 none = summarize_transcript env idx0 (some []) ∧
    summarize_transcript_advanced env idx0 none style detail translate =
      ⟨"Error: Transcript is empty.", idx0, 0, [], [], 0⟩ ∧
    summarize_transcript env idx0 none =
      ⟨"Error: Transcript is empty.", idx0, 0, [], [], 0⟩ ∧
    (summarize_transcript_advanced env idx0 none style detail translate).calls = 0 :=
  ⟨rfl, rfl, rfl, rfl, rfl⟩

/-! ## Claim C8 -/

/-- C8: for every non-empty transcript the simple entry point calls the
completion client on its own prompt, whose truncation agrees with the
advanced builder at the medium (8000-character) budget, which embeds the
same four-point-outline block as the advanced default style, and both
prompts end with the closing `Summary:` cue. -/
theorem claim8_simple_refines_advanced (env : Env) (idx0 : Nat) (t : List Char) (h : t ≠ []) :
    summarize_transcript env idx0 (some t) =
      generate_summary_with_retry env idx0 (buildSimplePrompt t) ∧
    simpleTruncatedTranscript t = truncatedTranscript t ("medium".toList) ∧
    (∃ pre post, buildSimplePrompt t = pre ++ defaultStyleBlock ++ post) ∧
    (∃ pre post, buildAdvancedPrompt t ("default".toList) ("medium".toList) ("none".toList) =
      pre ++ defaultStyleBlock ++ post) ∧
    ("\n\nSummary:".toList <:+ buildSimplePrompt t) ∧
    ("\n\nSummary:".toList <:+
      buildAdvancedPrompt t ("default".toList) ("medium".toList) ("none".toList)) := by
  refine ⟨?_, rfl, ?_, ?_, ?_, ?_⟩
  · simp [summarize_transcript, pyFalsyStr, h]
  · refine ⟨("Summarize this YouTube video transcript in an organized format:\n\n".toList) ++
      simpleTruncatedTranscript t ++ ("\n\n".toList), ("\n\nSummary:".toList), ?_⟩
    simp [buildSimplePrompt, List.append_assoc]
  · refine ⟨("Summarize this YouTube video transcript in the requested format:\n\n".toList) ++
      truncatedTranscript t ("medium".toList) ++ ("\n\n".toList),
      ("\n\nInstructions: ".toList) ++ detail_instructions_get ("medium".toList) ++
        translation_instruction_for ("none".toList) ++ ("\n\nSummary:".toList), ?_⟩
    simp [buildAdvancedPrompt, style_prompts_get, List.append_assoc]
  · have e : buildSimplePrompt t =
        (("Summarize this YouTube video transcript in an organized format:\n\n".toList) ++
          simpleTruncatedTranscript t ++ ("\n\n".toList) ++ defaultStyleBlock) ++
        ("\n\nSummary:".toList) := by
      simp [buildSimplePrompt, List.append_assoc]
    rw [e]
    exact List.suffix_append _ _
  · have e : buildAdvancedPrompt t ("default".toList) ("medium".toList) ("none".toList) =
        (("Summarize this YouTube video transcript in the requested format:\n\n".toList) ++
          truncatedTranscript t ("medium".toList) ++ ("\n\n".toList) ++
          style_prompts_get ("default".toList) ++ ("\n\nInstructions: ".toList) ++
          detail_instructions_get ("medium".toList) ++
          translation_instruction_for ("none".toList)) ++
        ("\n\nSummary:".toList) := by
      simp [buildAdvancedPrompt, List.append_assoc]
    rw [e]
    exact List.suffix_append _ _

theorem claim8_witness :
    ("hi".toList ≠ ([] : List Char)) ∧
    (summarize_transcript envOtherError 0 (some ("hi".toList)) =
      generate_summary_with_retry envOtherError 0 (buildSimplePrompt ("hi".toList)) ∧
    simpleTruncatedTranscript ("hi".toList) =
      truncatedTranscript ("hi".toList) ("medium".toList) ∧
    (∃ pre post, buildSimplePrompt ("hi".toList) = pre ++ defaultStyleBlock ++ post) ∧
    (∃ pre post,
      buildAdvancedPrompt ("hi".toList) ("default".toList) ("medium".toList) ("none".toList) =
        pre ++ defaultStyleBlock ++ post) ∧
    ("\n\nSummary:".toList <:+ buildSimplePrompt ("hi".toList)) ∧
    ("\n\nSummary:".toList <:+
      buildAdvancedPrompt ("hi".toList) ("default".toList) ("medium".toList) ("none".toList))) :=
  ⟨by decide, claim8_simple_refines_advanced envOtherError 0 ("hi".toList) (by decide)⟩

/-! ## Lemmas about `splitGo` (Python `str.split`) -/

theorem splitGo_ne_nil (sep : List Char) : ∀ (s : List Char) (skip : Nat), splitGo sep s skip ≠ [] := by
  intro s
  induction s with
  | nil => intro skip; simp [splitGo]
  | cons c rest ih =>
    intro skip
    cases skip with
    | succ k =>
      show splitGo sep rest k ≠ []
      exact ih k
    | zero =>
      simp only [splitGo]
      split
      · simp
      · cases hsg : splitGo sep rest 0 <;> simp

theorem splitGo_no_occurrence (sep : List Char) : ∀ s, ¬ sep <:+: s → splitGo sep s 0 = [s] := by
  intro s
  induction s with
  | nil => intro _; rfl
  | cons c rest ih =>
    intro h
    have hp : sep.isPrefixOf (c :: rest) = false := by
      by_contra hc
      have : sep.isPrefixOf (c :: rest) = true := by
        cases hb : sep.isPrefixOf (c :: rest)
        · exact absurd hb hc
        · rfl
      exact h (List.isPrefixOf_iff_prefix.mp this).isInfix
    have hrest : ¬ sep <:+: rest := fun hin => h (List.infix_cons hin)
    simp only [splitGo, hp, Bool.false_eq_true, if_false, ih hrest]

/-- In skip mode, `splitGo` consumes one pending separator character per step. -/
theorem splitGo_cons_skip (sep : List Char) (c : Char) (rest : List Char) (k : Nat) :
    splitGo sep (c :: rest) (k + 1) = splitGo sep rest k := rfl

theorem bool_eq_true_of_ne_false {b : Bool} (h : ¬ b = false) : b = true := by
  cases b
  · exact absurd rfl h
  · rfl

theorem splitGo_cons_zero_pos (sep : List Char) (c : Char) (rest : List Char)
    (hp : sep.isPrefixOf (c :: rest) = true) :
    splitGo sep (c :: rest) 0 = [] :: splitGo sep rest (sep.length - 1) := by
  simp [splitGo, hp]

theorem splitGo_cons_zero_neg (sep : List Char) (c : Char) (rest : List Char)
    (hp : sep.isPrefixOf (c :: rest) = false) :
    splitGo sep (c :: rest) 0 =
      match splitGo sep rest 0 with
      | [] => [[c]]
      | p :: ps => (c :: p) :: ps := by
  simp [splitGo, hp]

/-- Splitting on the marker `"v="` at its explicit first occurrence:
everything before it becomes the first field. -/
theorem splitGo_vmarker_append (rest : List Char) :
    ∀ pre, ¬ ['v', '='] <:+: pre →
      splitGo ['v', '='] (pre ++ (['v', '='] ++ rest)) 0 = pre :: splitGo ['v', '='] rest 0 := by
  intro pre
  induction pre with
  | nil =>
    intro _
    rw [List.nil_append]
    show splitGo ['v', '='] ('v' :: ('=' :: rest)) 0 = [] :: splitGo ['v', '='] rest 0
    rw [splitGo_cons_zero_pos _ _ _ (by simp [List.isPrefixOf])]
    rfl
  | cons x pre' ih =>
    intro h
    have hp : (['v', '='] : List Char).isPrefixOf (x :: (pre' ++ (['v', '='] ++ rest))) = false := by
      by_contra hc
      obtain ⟨t, ht⟩ := List.isPrefixOf_iff_prefix.mp (bool_eq_true_of_ne_false hc)
      cases pre' with
      | nil => simp at ht
      | cons y pre'' =>
        simp only [List.cons_append, List.append_assoc] at ht
        have hx : x = 'v' := by
          have := congrArg List.head? ht
          simpa using this.symm
        have hy : y = '=' := by
          have := congrArg (fun l => l.drop 1 |>.head?) ht
          simpa using this.symm
        exact h ⟨[], pre'', by simp [hx, hy]⟩
    have hrest : ¬ ['v', '='] <:+: pre' := fun hin => h (List.infix_cons hin)
    have e := ih hrest
    rw [List.cons_append, splitGo_cons_zero_neg _ _ _ hp, e]

/-- Splitting on a single character at its explicit first occurrence. -/
theorem splitGo_singleton_append (c : Char) (rest : List Char) :
    ∀ pre, c ∉ pre →
      splitGo [c] (pre ++ c :: rest) 0 = pre :: splitGo [c] rest 0 := by
  intro pre
  induction pre with
  | nil =>
    intro _
    rw [List.nil_append]
    rw [splitGo_cons_zero_pos _ _ _ (by simp [List.isPrefixOf])]
    rfl
  | cons x pre' ih =>
    intro h
    have hx : ¬ c = x := fun he => h (by rw [he]; exact List.mem_cons_self _ _)
    have hp : ([c] : List Char).isPrefixOf (x :: (pre' ++ c :: rest)) = false := by
      simp [List.isPrefixOf]
      exact hx
    have hrest : c ∉ pre' := fun hin => h (List.mem_cons_of_mem _ hin)
    rw [List.cons_append, splitGo_cons_zero_neg _ _ _ hp, ih hrest]

/-- The last field of a single-character split is untouched by anything left
of the last separator occurrence. -/
theorem splitGo_singleton_getLastD (c : Char) (id : List Char) :
    ∀ s, (splitGo [c] (s ++ c :: id) 0).getLastD [] = (splitGo [c] id 0).getLastD [] ∧
      2 ≤ (splitGo [c] (s ++ c :: id) 0).length := by
  intro s
  induction s with
  | nil =>
    rw [List.nil_append, splitGo_cons_zero_pos _ _ _ (by simp [List.isPrefixOf])]
    show ((([] : List Char) :: splitGo [c] id 0).getLastD [] = (splitGo [c] id 0).getLastD []) ∧
      2 ≤ (([] : List Char) :: splitGo [c] id 0).length
    cases hsg : splitGo [c] id 0 with
    | nil => exact absurd hsg (splitGo_ne_nil [c] id 0)
    | cons q qs => exact ⟨by rw [List.getLastD_cons], by simp⟩
  | cons x s' ih =>
    by_cases hx : x = c
    · subst hx
      rw [List.cons_append, splitGo_cons_zero_pos _ _ _ (by simp [List.isPrefixOf])]
      show ((([] : List Char) :: splitGo [x] (s' ++ x :: id) 0).getLastD [] =
          (splitGo [x] id 0).getLastD []) ∧
        2 ≤ (([] : List Char) :: splitGo [x] (s' ++ x :: id) 0).length
      obtain ⟨ih1, ih2⟩ := ih
      cases hsg : splitGo [x] (s' ++ x :: id) 0 with
      | nil => exact absurd hsg (splitGo_ne_nil [x] _ 0)
      | cons p ps =>
        rw [hsg] at ih1 ih2
        exact ⟨by rw [List.getLastD_cons]; exact ih1, by simp⟩
    · have hp : ([c] : List Char).isPrefixOf (x :: (s' ++ c :: id)) = false := by
        simp [List.isPrefixOf]
        exact fun he => hx he.symm
      obtain ⟨ih1, ih2⟩ := ih
      cases hsg : splitGo [c] (s' ++ c :: id) 0 with
      | nil => exact absurd hsg (splitGo_ne_nil [c] _ 0)
      | cons p ps =>
        have e : splitGo [c] ((x :: s') ++ c :: id) 0 = (x :: p) :: ps := by
          rw [List.cons_append, splitGo_cons_zero_neg _ _ _ hp, hsg]
        rw [e]
        rw [hsg] at ih1 ih2
        cases ps with
        | nil => simp at ih2
        | cons q qs =>
          refine ⟨?_, by simp⟩
          rw [List.getLastD_cons, List.getLastD_cons]
          rw [List.getLastD_cons, List.getLastD_cons] at ih1
          exact ih1

/-- The head field of a `"v="` split extends over a marker-free prefix. -/
theorem splitGo_vmarker_headD (rest : List Char) :
    ∀ a, ¬ ['v', '='] <:+: a → (a.getLast? = some 'v' → rest.head? ≠ some '=') →
      (splitGo ['v', '='] (a ++ rest) 0).headD [] =
        a ++ (splitGo ['v', '='] rest 0).headD [] := by
  intro a
  induction a with
  | nil => intro _ _; simp
  | cons x a' ih =>
    intro h hlast
    have hp : (['v', '='] : List Char).isPrefixOf (x :: (a' ++ rest)) = false := by
      by_contra hc
      obtain ⟨t, ht⟩ := List.isPrefixOf_iff_prefix.mp (bool_eq_true_of_ne_false hc)
      have hx : x = 'v' := by
        have := congrArg List.head? ht
        simpa using this.symm
      cases a' with
      | nil =>
        have hr : rest.head? = some '=' := by
          have := congrArg (fun l => l.drop 1 |>.head?) ht
          simpa using this.symm
        exact hlast (by simp [hx]) hr
      | cons y a'' =>
        have hy : y = '=' := by
          have := congrArg (fun l => l.drop 1 |>.head?) ht
          simpa using this.symm
        exact h ⟨[], a'', by simp [hx, hy]⟩
    have hrest : ¬ ['v', '='] <:+: a' := fun hin => h (List.infix_cons hin)
    have hlast' : a'.getLast? = some 'v' → rest.head? ≠ some '=' := by
      intro hl
      refine hlast ?_
      cases a' with
      | nil => simp at hl
      | cons y a'' => rw [List.getLast?_cons_cons]; exact hl
    have e := ih hrest hlast'
    cases hsg : splitGo ['v', '='] (a' ++ rest) 0 with
    | nil => exact absurd hsg (splitGo_ne_nil _ _ 0)
    | cons p ps =>
      have estep : splitGo ['v', '='] ((x :: a') ++ rest) 0 = (x :: p) :: ps := by
        rw [List.cons_append, splitGo_cons_zero_neg _ _ _ hp, hsg]
      rw [estep]
      rw [hsg] at e
      simp only [List.headD_cons] at e ⊢
      rw [e, List.cons_append]

/-- The marker `"v="` cannot end at a character other than `'='`: stripping a
final non-`'='` character preserves absence of the marker. -/
theorem vmarker_infix_of_concat (p : List Char) (c : Char) (hc : c ≠ '=')
    (h : ['v', '='] <:+: p ++ [c]) : ['v', '='] <:+: p := by
  obtain ⟨s, t, hst⟩ := h
  rcases List.eq_nil_or_concat t with rfl | ⟨t', d, rfl⟩
  · exfalso
    have hl : (s ++ ['v', '='] ++ ([] : List Char)).getLast? = (p ++ [c]).getLast? :=
      congrArg List.getLast? hst
    rw [List.append_nil] at hl
    have h1 : (s ++ ['v', '='] : List Char).getLast? = some '=' := by
      rw [show s ++ ['v', '='] = (s ++ ['v']) ++ ['='] from by simp, List.getLast?_concat]
    rw [h1, List.getLast?_concat] at hl
    exact hc (Option.some.inj hl).symm
  · rw [List.concat_eq_append, show s ++ ['v', '='] ++ (t' ++ [d]) =
      (s ++ ['v', '='] ++ t') ++ [d] from by simp] at hst
    obtain ⟨h1, _⟩ := List.append_inj' hst (by simp)
    exact ⟨s, t', h1⟩

theorem listContainsSub_correct (needle : List Char) :
    ∀ hay, listContainsSub hay needle = true ↔ needle <:+: hay := by
  intro hay
  induction hay with
  | nil => simp [listContainsSub, List.isEmpty_iff]
  | cons c t ih =>
    simp only [listContainsSub, Bool.or_eq_true, ih, List.infix_cons_iff,
      List.isPrefixOf_iff_prefix]

theorem singleton_infix_of_mem (c : Char) (l : List Char) (h : [c] <:+: l) : c ∈ l :=
  h.subset (List.mem_singleton_self c)

/-! ## Claim C6 -/

/-- C6, as stated, is false: `split("v=")[1]` keys on the *first* occurrence
of `"v="` in the whole URL, so a URL of the supported query shape
`...?v=ID` whose prefix already contains `"v="` extracts the wrong value.
`"watch?v=x&t" ++ "?v=" ++ "ID"` extracts `"x"`, not `"ID"`. -/
theorem claim6_counterexample :
    ("watch?v=x&t?v=ID".toList = "watch?v=x&t".toList ++ ("?v=".toList) ++ "ID".toList) ∧
    extract_video_id ("watch?v=x&t?v=ID".toList) = "x".toList ∧
    extract_video_id ("watch?v=x&t?v=ID".toList) ≠ "ID".toList := by decide

/-- C6 (amended): identifier extraction returns exactly ID for both supported
URL shapes provided the marker `"v="` does not occur in the prefix (for the
path form: anywhere in the URL), the marker does not occur in ID, and ID
contains no terminator character (`'&'` for the query form, `'/'` for the
path form). -/
theorem claim6_extract_id (pre id suf : List Char) :
    (¬ ['v', '='] <:+: pre → ¬ ['v', '='] <:+: id → '&' ∉ id →
      extract_video_id (pre ++ ("?v=".toList) ++ id ++ ('&' :: suf)) = id) ∧
    (¬ ['v', '='] <:+: pre → ¬ ['v', '='] <:+: id → '&' ∉ id →
      extract_video_id (pre ++ ("?v=".toList) ++ id) = id) ∧
    (¬ ['v', '='] <:+: (pre ++ '/' :: id) → '/' ∉ id →
      extract_video_id (pre ++ '/' :: id) = id) := by
  refine ⟨?_, ?_, ?_⟩
  · intro h1 h2 h3
    have hpre : ¬ ['v', '='] <:+: (pre ++ ['?']) :=
      fun hin => h1 (vmarker_infix_of_concat pre '?' (by decide) hin)
    have hurl : pre ++ ("?v=".toList) ++ id ++ ('&' :: suf) =
        (pre ++ ['?']) ++ (['v', '='] ++ (id ++ '&' :: suf)) := by
      simp [show ("?v=".toList : List Char) = ['?', 'v', '='] from rfl]
    have hsplit : splitOnSub ("v=".toList) (pre ++ ("?v=".toList) ++ id ++ ('&' :: suf)) =
        (pre ++ ['?']) :: splitGo ['v', '='] (id ++ '&' :: suf) 0 := by
      show splitGo ['v', '='] (pre ++ ("?v=".toList) ++ id ++ ('&' :: suf)) 0 = _
      rw [hurl]
      exact splitGo_vmarker_append (id ++ '&' :: suf) (pre ++ ['?']) hpre
    have hguard : listContainsSub (pre ++ ("?v=".toList) ++ id ++ ('&' :: suf)) ("v=".toList)
        = true := by
      refine (listContainsSub_correct _ _).mpr ?_
      exact ⟨pre ++ ['?'], id ++ '&' :: suf, by rw [hurl]; simp⟩
    have hhead : (splitGo ['v', '='] (id ++ '&' :: suf) 0).headD [] =
        id ++ ('&' :: (splitGo ['v', '='] suf 0).headD []) := by
      rw [splitGo_vmarker_headD ('&' :: suf) id h2 (fun _ => by simp)]
      congr 1
      rw [show ('&' :: suf : List Char) = ['&'] ++ suf from rfl,
        splitGo_vmarker_headD suf ['&']
          (fun hin => by have := hin.length_le; simp at this)
          (fun hl => by simp at hl)]
      rfl
    simp only [extract_video_id, hguard, if_true]
    rw [hsplit]
    cases hl : splitGo ['v', '='] (id ++ '&' :: suf) 0 with
    | nil => exact absurd hl (splitGo_ne_nil _ _ 0)
    | cons q qs =>
      rw [hl] at hhead
      simp only [List.headD_cons] at hhead
      simp only [List.getD_cons_succ, List.getD_cons_zero]
      rw [hhead]
      show (splitGo ['&'] (id ++ '&' :: (splitGo ['v', '='] suf 0).headD []) 0).getD 0 [] = id
      rw [splitGo_singleton_append '&' ((splitGo ['v', '='] suf 0).headD []) id h3]
      rfl
  · intro h1 h2 h3
    have hpre : ¬ ['v', '='] <:+: (pre ++ ['?']) :=
      fun hin => h1 (vmarker_infix_of_concat pre '?' (by decide) hin)
    have hurl : pre ++ ("?v=".toList) ++ id = (pre ++ ['?']) ++ (['v', '='] ++ id) := by
      simp [show ("?v=".toList : List Char) = ['?', 'v', '='] from rfl]
    have hsplit : splitOnSub ("v=".toList) (pre ++ ("?v=".toList) ++ id) =
        (pre ++ ['?']) :: splitGo ['v', '='] id 0 := by
      show splitGo ['v', '='] (pre ++ ("?v=".toList) ++ id) 0 = _
      rw [hurl]
      exact splitGo_vmarker_append id (pre ++ ['?']) hpre
    have hguard : listContainsSub (pre ++ ("?v=".toList) ++ id) ("v=".toList) = true := by
      refine (listContainsSub_correct _ _).mpr ?_
      exact ⟨pre ++ ['?'], id, by rw [hurl]; simp⟩
    simp only [extract_video_id, hguard, if_true]
    rw [hsplit, splitGo_no_occurrence ['v', '='] id h2]
    simp only [List.getD_cons_succ, List.getD_cons_zero]
    show (splitGo ['&'] id 0).getD 0 [] = id
    rw [splitGo_no_occurrence ['&'] id (fun hin => h3 (singleton_infix_of_mem '&' id hin))]
    rfl
  · intro h1 h2
    have hguard : listContainsSub (pre ++ '/' :: id) ("v=".toList) = false := by
      cases hb : listContainsSub (pre ++ '/' :: id) ("v=".toList)
      · rfl
      · exact absurd ((listContainsSub_correct _ _).mp hb) h1
    simp only [extract_video_id, hguard, Bool.false_eq_true, if_false]
    show (splitGo ['/'] (pre ++ '/' :: id) 0).getLastD [] = id
    rw [(splitGo_singleton_getLastD '/' id pre).1,
      splitGo_no_occurrence ['/'] id (fun hin => h2 (singleton_infix_of_mem '/' id hin))]
    rfl

theorem claim6_witness :
    (¬ ['v', '='] <:+: ("https://www.youtube.com/watch".toList)) ∧
    (¬ ['v', '='] <:+: ("dQw4w9WgXcQ".toList)) ∧
    ('&' ∉ ("dQw4w9WgXcQ".toList)) ∧
    extract_video_id ("https://www.youtube.com/watch".toList ++ ("?v=".toList) ++
      ("dQw4w9WgXcQ".toList) ++ ('&' :: "t=1s".toList)) = "dQw4w9WgXcQ".toList ∧
    extract_video_id ("https://www.youtube.com/watch".toList ++ ("?v=".toList) ++
      ("dQw4w9WgXcQ".toList)) = "dQw4w9WgXcQ".toList ∧
    (¬ ['v', '='] <:+: ("https://youtu.be".toList ++ '/' :: "dQw4w9WgXcQ".toList)) ∧
    ('/' ∉ ("dQw4w9WgXcQ".toList)) ∧
    extract_video_id ("https://youtu.be".toList ++ '/' :: "dQw4w9WgXcQ".toList) =
      "dQw4w9WgXcQ".toList :=
  ⟨by decide, by decide, by decide,
    (claim6_extract_id ("https://www.youtube.com/watch".toList) ("dQw4w9WgXcQ".toList)
      ("t=1s".toList)).1 (by decide) (by decide) (by decide),
    (claim6_extract_id ("https://www.youtube.com/watch".toList) ("dQw4w9WgXcQ".toList)
      ("t=1s".toList)).2.1 (by decide) (by decide) (by decide),
    by decide, by decide,
    (claim6_extract_id ("https://youtu.be".toList) ("dQw4w9WgXcQ".toList) []).2.2
      (by decide) (by decide)⟩

end YTSum
